import Mathlib

/-!
Verification of the rule-engine and history-store behavior of the
self-healing maintenance dashboard (src/app.py).

The dashboard reads seven integer metrics from sliders, evaluates fixed
threshold rules to produce root-cause labels and remediation suggestions,
calls a pre-trained classifier, and appends each evaluation to a CSV-backed
history that is reloaded at startup and rewritten in full after each run.

Embedding choices:
  - slider values are integers; a non-UI caller may pass any integer, so
    Reading fields are unconstrained Int;
  - the pandas DataFrame holding the history is modelled as a Frame, a
    column-name list together with a list of typed records; to_csv and
    read_csv are modelled as faithful (identity) serialization of a Frame,
    so a file on disk is Option Frame, none meaning the file is absent;
  - timestamps are modelled as Nat, a totally ordered stand-in for the
    parsed datetime values that pandas sorts by;
  - the classifier is opaque: a structure holding the predict and
    predict_proba functions, with probability as a rational;
  - Python exceptions are modelled with Except String.
-/

set_option maxHeartbeats 1000000

namespace SelfHealing

/-- One snapshot of the seven slider metrics (src/app.py lines 46-52).
Fields are unconstrained integers: the sliders bound them in the UI, but
nothing downstream enforces the bounds. -/
structure Reading where
  cpu : Int
  memory : Int
  error : Int
  response : Int
  threads : Int
  network : Int
  disk : Int
deriving DecidableEq

/-- Diagnostic layer, src/app.py lines 116-131: sequential independent
threshold checks appending fixed labels to an initially empty list. -/
def root_causes (r : Reading) : List String :=
  (if r.cpu > 85 then ["CPU Saturation Detected"] else []) ++
  (if r.memory > 85 then ["High Memory Utilization"] else []) ++
  (if r.error > 7 then ["Error Spike Detected"] else []) ++
  (if r.response > 400 then ["High Response Latency"] else []) ++
  (if r.threads > 800 then ["High Thread Count"] else []) ++
  (if r.network > 800 then ["High Network Traffic"] else []) ++
  (if r.disk > 400 then ["Heavy Disk I/O Activity"] else [])

/-- Prescriptive layer, src/app.py lines 145-156: same shape as the
diagnostic layer but with only five rules; the error-rate and
response-latency conditions have no remediation rule. -/
def solutions (r : Reading) : List String :=
  (if r.cpu > 85 then ["Scale CPU resources."] else []) ++
  (if r.memory > 85 then ["Investigate memory leaks."] else []) ++
  (if r.threads > 800 then ["Check for thread leaks or runaway processes."] else []) ++
  (if r.network > 800 then ["Analyze unusual network traffic patterns."] else []) ++
  (if r.disk > 400 then ["Optimize disk-intensive operations."] else [])

/-- The seven root-cause labels in the fixed source order. -/
def causeLabels : List String :=
  ["CPU Saturation Detected", "High Memory Utilization", "Error Spike Detected",
   "High Response Latency", "High Thread Count", "High Network Traffic",
   "Heavy Disk I/O Activity"]

/-- The five remediation strings in the fixed source order. -/
def solutionLabels : List String :=
  ["Scale CPU resources.", "Investigate memory leaks.",
   "Check for thread leaks or runaway processes.",
   "Analyze unusual network traffic patterns.",
   "Optimize disk-intensive operations."]

/-- Modelled from the spec: the root-cause table of section 4.1, one
threshold predicate per label, used to state the spec-side characterization
of the diagnostic layer. -/
def causeRules : List ((Reading → Bool) × String) :=
  [(fun r => decide (r.cpu > 85), "CPU Saturation Detected"),
   (fun r => decide (r.memory > 85), "High Memory Utilization"),
   (fun r => decide (r.error > 7), "Error Spike Detected"),
   (fun r => decide (r.response > 400), "High Response Latency"),
   (fun r => decide (r.threads > 800), "High Thread Count"),
   (fun r => decide (r.network > 800), "High Network Traffic"),
   (fun r => decide (r.disk > 400), "Heavy Disk I/O Activity")]

/-- Modelled from the spec: the remediation table of section 4.1. -/
def solutionRules : List ((Reading → Bool) × String) :=
  [(fun r => decide (r.cpu > 85), "Scale CPU resources."),
   (fun r => decide (r.memory > 85), "Investigate memory leaks."),
   (fun r => decide (r.threads > 800), "Check for thread leaks or runaway processes."),
   (fun r => decide (r.network > 800), "Analyze unusual network traffic patterns."),
   (fun r => decide (r.disk > 400), "Optimize disk-intensive operations.")]

/-- Modelled from the spec: the labels of the rules of section 4.1 whose
predicate holds, kept in table order. -/
def rootCausesSpec (r : Reading) : List String :=
  (causeRules.filter (fun p => p.1 r)).map Prod.snd

/-- Modelled from the spec: the remediations whose predicate holds, in
table order. -/
def solutionsSpec (r : Reading) : List String :=
  (solutionRules.filter (fun p => p.1 r)).map Prod.snd

/-- Maps each remediation string to the root-cause label produced by the
same threshold predicate. -/
def solToCause : String → String
  | "Scale CPU resources." => "CPU Saturation Detected"
  | "Investigate memory leaks." => "High Memory Utilization"
  | "Check for thread leaks or runaway processes." => "High Thread Count"
  | "Analyze unusual network traffic patterns." => "High Network Traffic"
  | "Optimize disk-intensive operations." => "Heavy Disk I/O Activity"
  | _ => ""

/-- The diagnostic and prescriptive blocks as one operation with an
explicit exception channel. The Python block (lines 116-162) consists only
of integer comparisons and list appends, which are total, so its embedding
returns ok unconditionally: no code path raises. -/
def rulesOutcome (r : Reading) : Except String (List String × List String) :=
  Except.ok (root_causes r, solutions r)

-- Helper lemmas about the if-block shape shared by both rule lists.

theorem mem_ite_block {c : Prop} [Decidable c] {a x : String} {l : List String} :
    a ∈ (if c then [x] else []) ++ l ↔ (c ∧ a = x) ∨ a ∈ l := by
  split_ifs with h <;> simp [h]

theorem mem_ite_single {c : Prop} [Decidable c] {a x : String} :
    a ∈ (if c then [x] else []) ↔ c ∧ a = x := by
  split_ifs with h <;> simp [h]

theorem sublist_ite_block {c : Prop} [Decidable c] (x : String) {l m : List String}
    (h : List.Sublist l m) : List.Sublist ((if c then [x] else []) ++ l) (x :: m) := by
  split_ifs with hc
  · simpa using List.Sublist.cons₂ x h
  · simpa using List.Sublist.cons x h

theorem sublist_ite_single {c : Prop} [Decidable c] (x : String) :
    List.Sublist (if c then [x] else []) [x] := by
  split_ifs <;> simp

theorem root_causes_sublist (r : Reading) : List.Sublist (root_causes r) causeLabels := by
  unfold root_causes causeLabels
  simp only [List.append_assoc]
  apply sublist_ite_block
  apply sublist_ite_block
  apply sublist_ite_block
  apply sublist_ite_block
  apply sublist_ite_block
  apply sublist_ite_block
  exact sublist_ite_single _

theorem solutions_sublist (r : Reading) : List.Sublist (solutions r) solutionLabels := by
  unfold solutions solutionLabels
  simp only [List.append_assoc]
  apply sublist_ite_block
  apply sublist_ite_block
  apply sublist_ite_block
  apply sublist_ite_block
  exact sublist_ite_single _

theorem root_causes_eq_spec (r : Reading) : root_causes r = rootCausesSpec r := by
  unfold root_causes rootCausesSpec causeRules
  simp only [List.filter_cons, List.filter_nil, decide_eq_true_eq]
  split_ifs <;> simp

theorem solutions_eq_spec (r : Reading) : solutions r = solutionsSpec r := by
  unfold solutions solutionsSpec solutionRules
  simp only [List.filter_cons, List.filter_nil, decide_eq_true_eq]
  split_ifs <;> simp

theorem mem_root_causes (r : Reading) (a : String) :
    a ∈ root_causes r ↔
      (r.cpu > 85 ∧ a = "CPU Saturation Detected") ∨
      (r.memory > 85 ∧ a = "High Memory Utilization") ∨
      (r.error > 7 ∧ a = "Error Spike Detected") ∨
      (r.response > 400 ∧ a = "High Response Latency") ∨
      (r.threads > 800 ∧ a = "High Thread Count") ∨
      (r.network > 800 ∧ a = "High Network Traffic") ∨
      (r.disk > 400 ∧ a = "Heavy Disk I/O Activity") := by
  unfold root_causes
  simp only [List.append_assoc, mem_ite_block, mem_ite_single]

theorem mem_solutions (r : Reading) (a : String) :
    a ∈ solutions r ↔
      (r.cpu > 85 ∧ a = "Scale CPU resources.") ∨
      (r.memory > 85 ∧ a = "Investigate memory leaks.") ∨
      (r.threads > 800 ∧ a = "Check for thread leaks or runaway processes.") ∨
      (r.network > 800 ∧ a = "Analyze unusual network traffic patterns.") ∨
      (r.disk > 400 ∧ a = "Optimize disk-intensive operations.") := by
  unfold solutions
  simp only [List.append_assoc, mem_ite_block, mem_ite_single]

theorem solutions_length_le (r : Reading) :
    (solutions r).length ≤ (root_causes r).length := by
  unfold root_causes solutions
  split_ifs <;> simp

/-- One persisted evaluation: the row written by lines 168-179 of
src/app.py. Timestamp is the parsed datetime value (modelled as Nat), the
seven metrics are the slider integers, Crash_Probability the stored float
(modelled as a rational) and Failure_Next_5min the literal YES or NO
string. -/
structure HistoryRecord where
  timestamp : Nat
  cpu : Int
  memory : Int
  error : Int
  response : Int
  threads : Int
  network : Int
  disk : Int
  crashProbability : ℚ
  failureNext5min : String
deriving DecidableEq

/-- A pandas DataFrame: its column names plus its typed rows. -/
structure Frame where
  columns : List String
  rows : List HistoryRecord
deriving DecidableEq

/-- The column list of lines 32-38 of src/app.py. -/
def historyColumns : List String :=
  ["Timestamp", "CPU", "Memory", "Error", "Response", "Threads",
   "Network_Traffic", "Disk_IO", "Crash_Probability", "Failure_Next_5min"]

/-- The empty DataFrame built on the missing-file branch (lines 32-38). -/
def emptyHistory : Frame :=
  { columns := historyColumns, rows := [] }

/-- Lines 29-38 of src/app.py: if the log file exists it is parsed as-is by
read_csv, with whatever columns it has and no schema validation; otherwise
an empty frame with the canonical columns is created. Neither branch
raises. -/
def loadHistory : Option Frame → Except String Frame
  | some f => Except.ok f
  | none => Except.ok emptyHistory

/-- The one-row frame of lines 168-179, as a record. -/
def newLog (ts : Nat) (r : Reading) (prob : ℚ) (flag : String) : HistoryRecord :=
  { timestamp := ts, cpu := r.cpu, memory := r.memory, error := r.error,
    response := r.response, threads := r.threads, network := r.network,
    disk := r.disk, crashProbability := prob, failureNext5min := flag }

/-- Column union as pd.concat computes it: the left frame columns followed
by the new columns not already present. -/
def unionCols (a b : List String) : List String :=
  a ++ b.filter (fun c => decide (c ∉ a))

/-- Lines 181-182 of src/app.py: pd.concat of the loaded history with the
one-row frame, then to_csv rewriting the whole file; the new row lands at
the end and existing rows are untouched. -/
def appendLog (h : Frame) (entry : HistoryRecord) : Frame :=
  { columns := unionCols h.columns historyColumns, rows := h.rows ++ [entry] }

/-- Comparison used by sort_values on the parsed Timestamp column. -/
def byTime (a b : HistoryRecord) : Prop :=
  a.timestamp ≤ b.timestamp

instance : DecidableRel byTime :=
  fun a b => inferInstanceAs (Decidable (a.timestamp ≤ b.timestamp))

instance : IsTotal HistoryRecord byTime :=
  ⟨fun a b => Nat.le_total a.timestamp b.timestamp⟩

instance : IsTrans HistoryRecord byTime :=
  ⟨fun _ _ _ hab hbc => Nat.le_trans hab hbc⟩

/-- Lines 194-198 of src/app.py: when more than one record exists, the
Timestamp column is parsed and the frame is sorted by it before the trend
charts are drawn; with at most one record the frame is used as-is. -/
def ordered_by_time (h : Frame) : Frame :=
  if 1 < h.rows.length then
    { h with rows := List.insertionSort byTime h.rows }
  else h

/-- Opaque pre-trained classifier: the predict and predict_proba entry
points over one reading, probability of the positive class as a rational. -/
structure Model where
  predict : Reading → Nat
  predictProba : Reading → ℚ

/-- Line 25 of src/app.py: joblib.load of the model artifact, which raises
when the artifact is absent; there is no surrounding try block, so the
exception is fatal to the script run. -/
def loadModel : Option Model → Except String Model
  | some m => Except.ok m
  | none => Except.error "joblib.load failed: predictive_model.pkl"

/-- One run of the script with the button pressed, in source order: model
load (line 25), history load (lines 29-38), then on the button branch the
prediction (lines 93-95), the rule evaluation (lines 116-156) and the log
append and rewrite (lines 168-182). The reading and the history are not
touched before the model loads. -/
def runApp (modelFile : Option Model) (histFile : Option Frame) (ts : Nat)
    (r : Reading) : Except String (Frame × List String × List String) := do
  let model ← loadModel modelFile
  let history ← loadHistory histFile
  let probability := model.predictProba r * 100
  let flag := if model.predict r = 1 then "YES" else "NO"
  let entry := newLog ts r probability flag
  Except.ok (appendLog history entry, root_causes r, solutions r)

/-- A backing file that exists but has only one of the expected columns. -/
def partialFrame : Frame :=
  { columns := ["Timestamp"], rows := [] }

/-- A concrete record used to instantiate the round-trip property. -/
def sampleRecord : HistoryRecord :=
  { timestamp := 17, cpu := 90, memory := 50, error := 1, response := 100,
    threads := 200, network := 50, disk := 20, crashProbability := 37 / 2,
    failureNext5min := "NO" }

/-- C1: for every reading, each of the seven root-cause labels is in the
Rule Engine output iff its strict threshold predicate holds, the output
equals the spec-side filter of the section 4.1 table, and it is a sublist
of the fixed label order, so the fired labels always appear in that order. -/
theorem c1_root_cause_iff_and_order (r : Reading) :
    (("CPU Saturation Detected" ∈ root_causes r ↔ r.cpu > 85) ∧
     ("High Memory Utilization" ∈ root_causes r ↔ r.memory > 85) ∧
     ("Error Spike Detected" ∈ root_causes r ↔ r.error > 7) ∧
     ("High Response Latency" ∈ root_causes r ↔ r.response > 400) ∧
     ("High Thread Count" ∈ root_causes r ↔ r.threads > 800) ∧
     ("High Network Traffic" ∈ root_causes r ↔ r.network > 800) ∧
     ("Heavy Disk I/O Activity" ∈ root_causes r ↔ r.disk > 400)) ∧
    root_causes r = rootCausesSpec r ∧
    List.Sublist (root_causes r) causeLabels := by
  refine ⟨⟨?_, ?_, ?_, ?_, ?_, ?_, ?_⟩,
    root_causes_eq_spec r, root_causes_sublist r⟩ <;>
    rw [mem_root_causes] <;> simp

/-- C2: for every reading, the remediation list contains each of the five
remediation strings iff its threshold predicate holds, equals the spec-side
filter of the remediation table, is a sublist of the fixed remediation
order, and is unchanged by the error and response fields: no remediation
exists for the error-rate or response-latency conditions. -/
theorem c2_remediation_iff_and_order (r : Reading) :
    (("Scale CPU resources." ∈ solutions r ↔ r.cpu > 85) ∧
     ("Investigate memory leaks." ∈ solutions r ↔ r.memory > 85) ∧
     ("Check for thread leaks or runaway processes." ∈ solutions r ↔ r.threads > 800) ∧
     ("Analyze unusual network traffic patterns." ∈ solutions r ↔ r.network > 800) ∧
     ("Optimize disk-intensive operations." ∈ solutions r ↔ r.disk > 400)) ∧
    solutions r = solutionsSpec r ∧
    List.Sublist (solutions r) solutionLabels ∧
    (∀ e p : Int, solutions { r with error := e, response := p } = solutions r) := by
  refine ⟨⟨?_, ?_, ?_, ?_, ?_⟩,
    solutions_eq_spec r, solutions_sublist r, fun e p => rfl⟩ <;>
    rw [mem_solutions] <;> simp

/-- C3: loading the file written after appending a record to the loaded
history yields the old rows unchanged, in order, followed by that record
as the last element, equal in every field. -/
theorem c3_append_roundtrip (file : Option Frame) (entry : HistoryRecord)
    (h : Frame) (_hl : loadHistory file = Except.ok h) :
    loadHistory (some (appendLog h entry)) = Except.ok (appendLog h entry) ∧
    (appendLog h entry).rows = h.rows ++ [entry] ∧
    (appendLog h entry).rows.getLast? = some entry := by
  refine ⟨rfl, rfl, ?_⟩
  simp [appendLog]

theorem c3_append_roundtrip_witness :
    loadHistory (some (appendLog emptyHistory sampleRecord)) =
      Except.ok (appendLog emptyHistory sampleRecord) ∧
    (appendLog emptyHistory sampleRecord).rows = emptyHistory.rows ++ [sampleRecord] ∧
    (appendLog emptyHistory sampleRecord).rows.getLast? = some sampleRecord :=
  c3_append_roundtrip none sampleRecord emptyHistory rfl

/-- C4 counterexample: a backing file holding only the Timestamp column is
missing the CPU column, yet load returns it unchanged with Except.ok, not
an error naming the missing columns. -/
theorem c4_counterexample :
    loadHistory (some partialFrame) = Except.ok partialFrame ∧
    "CPU" ∈ historyColumns ∧ "CPU" ∉ partialFrame.columns := by
  refine ⟨rfl, ?_, ?_⟩ <;> decide

/-- C4 amended: if the history backing file exists, load returns its
parsed contents as-is, whatever its columns are; no schema validation
happens at load time and no error is raised for missing columns. -/
theorem c4_load_no_schema_validation (f : Frame) :
    loadHistory (some f) = Except.ok f := rfl

/-- C5: when the backing file does not exist, load succeeds and returns
the empty frame carrying exactly the fixed column schema. -/
theorem c5_load_missing_file :
    loadHistory none = Except.ok emptyHistory ∧
    emptyHistory.columns = historyColumns ∧ emptyHistory.rows = [] :=
  ⟨rfl, rfl, rfl⟩

/-- C6: for every history frame, including ones whose rows were appended
with out-of-order timestamps, ordered_by_time returns the same multiset of
records sorted in non-decreasing timestamp order. -/
theorem c6_ordered_by_time_sorted (h : Frame) :
    List.Sorted byTime (ordered_by_time h).rows ∧
    List.Perm (ordered_by_time h).rows h.rows := by
  unfold ordered_by_time
  split_ifs with hlen
  · exact ⟨List.sorted_insertionSort byTime h.rows,
      List.perm_insertionSort byTime h.rows⟩
  · refine ⟨?_, List.Perm.refl _⟩
    cases hr : h.rows with
    | nil => simp
    | cons a t =>
      cases t with
      | nil => simp
      | cons b t2 => rw [hr] at hlen; simp at hlen

/-- C7: when the model artifact cannot be loaded, the whole run aborts
with the load error, whatever the history file, timestamp and reading are:
the failure precedes any use of the input and there is no fallback
prediction path. -/
theorem c7_startup_aborts_without_model (histFile : Option Frame) (ts : Nat)
    (r : Reading) :
    runApp none histFile ts r =
      Except.error "joblib.load failed: predictive_model.pkl" := rfl

/-- C8: for every reading, with fields arbitrary integers and in
particular outside the nominal slider bounds, the rule evaluation returns
ok — no exception — and its two lists are exactly the threshold filters of
the section 4.1 tables applied to the raw, unclamped values. -/
theorem c8_rules_total_out_of_range (r : Reading) :
    rulesOutcome r = Except.ok (rootCausesSpec r, solutionsSpec r) := by
  unfold rulesOutcome
  rw [root_causes_eq_spec, solutions_eq_spec]

/-- C9: a reading with every field at or below its normal threshold
produces an empty root-cause list and an empty remediation list. -/
theorem c9_all_normal_empty (r : Reading) (h1 : r.cpu ≤ 85) (h2 : r.memory ≤ 85)
    (h3 : r.error ≤ 7) (h4 : r.response ≤ 400) (h5 : r.threads ≤ 800)
    (h6 : r.network ≤ 800) (h7 : r.disk ≤ 400) :
    root_causes r = [] ∧ solutions r = [] := by
  constructor
  · unfold root_causes
    split_ifs <;> first | rfl | omega
  · unfold solutions
    split_ifs <;> first | rfl | omega

theorem c9_all_normal_empty_witness :
    root_causes ⟨50, 50, 1, 100, 200, 50, 20⟩ = [] ∧
    solutions ⟨50, 50, 1, 100, 200, 50, 20⟩ = [] :=
  c9_all_normal_empty ⟨50, 50, 1, 100, 200, 50, 20⟩ (by decide) (by decide)
    (by decide) (by decide) (by decide) (by decide) (by decide)

/-- C10: every emitted remediation corresponds, through the shared
threshold predicate, to a root-cause label emitted for the same reading;
the remediation list is never longer than the root-cause list, and an
empty root-cause list forces an empty remediation list. -/
theorem c10_remediation_implies_cause (r : Reading) :
    (∀ s ∈ solutions r, solToCause s ∈ root_causes r) ∧
    (solutions r).length ≤ (root_causes r).length ∧
    (root_causes r = [] → solutions r = []) := by
  refine ⟨?_, solutions_length_le r, ?_⟩
  · intro s hs
    rw [mem_solutions] at hs
    rw [mem_root_causes]
    rcases hs with ⟨hc, rfl⟩ | ⟨hc, rfl⟩ | ⟨hc, rfl⟩ | ⟨hc, rfl⟩ | ⟨hc, rfl⟩ <;>
      simp [solToCause, hc]
  · intro hempty
    have hlen := solutions_length_le r
    rw [hempty] at hlen
    simpa using List.eq_nil_of_length_eq_zero (Nat.le_zero.mp hlen)

theorem c10_remediation_implies_cause_witness :
    solutions ⟨10, 10, 0, 0, 0, 0, 0⟩ = [] :=
  (c10_remediation_implies_cause ⟨10, 10, 0, 0, 0, 0, 0⟩).2.2 (by decide)

end SelfHealing
